import Mathlib

/-!
Verification of the open-scouts execution core against its natural-language
specification.

The program under study is the scout scheduler shipped as a SQL migration
(functions `should_run_scout`, `dispatch_due_scouts`,
`cleanup_scout_executions`) together with the similarity-search recipe
(`search_similar_scouts`).  The embedding below translates those functions
directly:

* SQL `TIMESTAMP WITH TIME ZONE` values and intervals are rational numbers of
  seconds since an arbitrary epoch (`NOW()` becomes an explicit `now`
  argument, intervals become second counts: 5 minutes = 300 s, 24 h = 86400 s,
  and the frequency thresholds 1 h / 72 h / 168 h become 3600 / 259200 /
  604800 s once the source's division by 3600 is taken into account).
* Nullable SQL columns become `Option` values; SQL `TEXT` becomes `String`.
* The `scouts` and `scout_executions` tables become lists of records; a row
  `UPDATE` becomes a `List.map`, a `DELETE` a `List.filter`, and a
  `SELECT ... LIMIT n` a `List.filter` followed by `List.take n`.
* `net.http_post` calls are collected as a list of fired requests; the
  dispatcher performs no table writes, and accordingly its embedding returns
  the scout and execution lists unchanged.
-/

namespace OpenScouts

/-- A timestamp, measured in (rational) seconds since an arbitrary epoch. -/
abbrev Timestamp := ℚ

/-- A row of the `scouts` table, restricted to the columns the scheduler
reads: `id`, `title`, `goal`, `description`, `location`, `search_queries`,
`frequency`, `is_active`, `last_run_at`.  The `location` JSONB value is only
ever null-checked, so any payload type works; `search_queries` is a JSONB
array whose only observation is `jsonb_array_length`. -/
structure Scout where
  id : Nat
  title : Option String
  goal : Option String
  description : Option String
  location : Option String
  search_queries : Option (List String)
  frequency : Option String
  is_active : Bool
  last_run_at : Option Timestamp
deriving DecidableEq, Repr

/-- A row of the `scout_executions` table, restricted to the columns the
reaper and the similarity search read or write. -/
structure ScoutExecution where
  id : Nat
  scout_id : Nat
  status : String
  started_at : Timestamp
  completed_at : Option Timestamp
  error_message : Option String
  summary_text : String
  summary_embedding : Option (List ℚ)
deriving DecidableEq, Repr

/-- The `is_complete` check computed at the top of `should_run_scout`:
title, goal and description non-null and non-empty, location non-null,
search queries a non-null array of positive length, frequency non-null. -/
def scout_config_complete (p_title p_goal p_description : Option String)
    (p_location : Option String) (p_search_queries : Option (List String))
    (p_frequency : Option String) : Bool :=
  (match p_title with | some t => t != "" | none => false) &&
  (match p_goal with | some g => g != "" | none => false) &&
  (match p_description with | some d => d != "" | none => false) &&
  p_location.isSome &&
  (match p_search_queries with | some qs => decide (0 < qs.length) | none => false) &&
  p_frequency.isSome

/-- The helper function `should_run_scout` from the dispatcher migration.
The SQL computes `hours_since_last_run := EXTRACT(EPOCH FROM (NOW() -
p_last_run_at)) / 3600` and compares it against 1 / 72 / 168 depending on
`p_frequency`; `NOW()` is passed in as `now`. -/
def should_run_scout (p_frequency : Option String) (p_last_run_at : Option Timestamp)
    (p_is_active : Bool) (p_title p_goal p_description : Option String)
    (p_location : Option String) (p_search_queries : Option (List String))
    (now : Timestamp) : Bool :=
  -- Must be active and complete
  if !p_is_active || !scout_config_complete p_title p_goal p_description
      p_location p_search_queries p_frequency then
    false
  else
    match p_last_run_at with
    -- Never run before = should run
    | none => true
    | some last =>
      match p_frequency with
      | some "hourly" => decide (1 ≤ (now - last) / 3600)
      | some "every_3_days" => decide (72 ≤ (now - last) / 3600)
      | some "weekly" => decide (168 ≤ (now - last) / 3600)
      | _ => false

/-- One `net.http_post` call fired by the dispatcher. -/
structure HttpRequest where
  url : String
  scoutId : Nat
deriving DecidableEq, Repr

/-- The observable outcome of one `dispatch_due_scouts()` call: whether the
missing-secrets warning was raised, the HTTP requests fired, and the table
state after the call. -/
structure DispatchResult where
  warned : Bool
  requests : List HttpRequest
  scouts : List Scout
  executions : List ScoutExecution
deriving DecidableEq, Repr

/-- The dispatcher function `dispatch_due_scouts`.  It reads the two vault
secrets; if either is null it raises a warning and returns.  Otherwise it
selects scouts satisfying `should_run_scout` (capped by `LIMIT 20`) and fires
one async `net.http_post` per selected scout.  It writes neither `scouts`
nor `scout_executions`, which the embedding records by returning both lists
unchanged. -/
def dispatch_due_scouts (supabase_url anon_key : Option String)
    (scouts : List Scout) (executions : List ScoutExecution)
    (now : Timestamp) : DispatchResult :=
  match supabase_url, anon_key with
  | some url, some _key =>
    let due := (scouts.filter (fun s =>
      should_run_scout s.frequency s.last_run_at s.is_active s.title s.goal
        s.description s.location s.search_queries now)).take 20
    { warned := false
      requests := due.map (fun s =>
        { url := url ++ "/functions/v1/scout-cron?scoutId=" ++ toString s.id
          scoutId := s.id })
      scouts := scouts
      executions := executions }
  | _, _ =>
    { warned := true, requests := [], scouts := scouts, executions := executions }

/-- The reaper function `cleanup_scout_executions`.  Executions still
`running` whose `started_at` lies more than 5 minutes (300 s) in the past are
marked `failed` with `completed_at = NOW()` and the standard timeout message;
cron job-run history rows (represented by their `end_time`) older than
24 hours (86400 s) are deleted. -/
def cleanup_scout_executions (executions : List ScoutExecution)
    (job_run_details : List Timestamp) (now : Timestamp) :
    List ScoutExecution × List Timestamp :=
  ( executions.map (fun e =>
      if e.status == "running" && decide (e.started_at < now - 300) then
        { e with status := "failed", completed_at := some now,
                 error_message := some "Execution timed out after 5 minutes" }
      else e),
    job_run_details.filter (fun t => !decide (t < now - 86400)) )

/-- Dot product of two embedding vectors (componentwise product summed). -/
def vdot (a b : List ℚ) : ℚ := (List.zipWith (fun x y => x * y) a b).sum

/-- Squared Euclidean norm of an embedding vector. -/
def vnormSq (a : List ℚ) : ℚ := vdot a a

/-- Square-root-free comparison of pgvector cosine distances:
`cosine_dist_le q a b` decides `dist(q,a) ≤ dist(q,b)` where
`dist(q,x) = 1 - vdot q x / (‖q‖ * ‖x‖)`.  Writing `da = vdot q a`,
`db = vdot q b`, the comparison is equivalent (for vectors of nonzero norm)
to `da * ‖b‖ ≥ db * ‖a‖`, which is decided by sign analysis and squaring:
if the sides have different signs the sign decides; if both are nonnegative
the squares compare as `db^2 * ‖a‖^2 ≤ da^2 * ‖b‖^2`, and if both are
negative the squared comparison flips. -/
def cosine_dist_le (q a b : List ℚ) : Bool :=
  if 0 ≤ vdot q a then
    if vdot q b ≤ 0 then true
    else decide (vdot q b * vdot q b * vnormSq a ≤ vdot q a * vdot q a * vnormSq b)
  else
    if 0 ≤ vdot q b then false
    else decide (vdot q a * vdot q a * vnormSq b ≤ vdot q b * vdot q b * vnormSq a)

/-- Ordering key used by `ORDER BY summary_embedding <=> :embedding`: the
`<=>` operator is strict, so a null `summary_embedding` yields a null sort
key, and ascending `ORDER BY` places nulls last. -/
def embedding_dist_le (q : List ℚ) (a b : Option (List ℚ)) : Bool :=
  match a, b with
  | some va, some vb => cosine_dist_le q va vb
  | some _, none => true
  | none, some _ => false
  | none, none => true

/-- One row of the result set of `search_similar_scouts` (the `similarity`
column is `1 -` the cosine distance of the row's embedding, an irrational
quantity; the ranking claims only concern row identity and order, so the
embedding projects the `id` and `summary_text` columns). -/
structure SearchRow where
  id : Nat
  summary_text : String
deriving DecidableEq, Repr

/-- The ranked candidate pool: the `ORDER BY summary_embedding <=> :embedding`
clause, realised as a full scan sorted by ascending cosine distance.  The
SQL specifies no further sort key, so rows with equal distance keep their
scan order (modelled by a stable insertion sort). -/
def rank_by_distance (q : List ℚ) (pool : List ScoutExecution) : List ScoutExecution :=
  List.insertionSort
    (fun u v => embedding_dist_le q u.summary_embedding v.summary_embedding = true) pool

/-- The similarity-search query `search_similar_scouts`: filter
`status = 'completed'`, order by ascending cosine distance to the query
embedding, `LIMIT :limit`.  The pgvector `<=>` operator raises
`different vector dimensions` when a non-null stored vector and the query
vector disagree in length, which aborts the whole query; the embedding
returns that as an `Except.error`. -/
def search_similar_scouts (executions : List ScoutExecution)
    (embedding : List ℚ) (lim : Nat) : Except String (List SearchRow) :=
  let pool := executions.filter (fun e => e.status == "completed")
  if pool.any (fun e =>
      match e.summary_embedding with
      | some v => decide (v.length ≠ embedding.length)
      | none => false) then
    Except.error "different vector dimensions"
  else
    Except.ok (((rank_by_distance embedding pool).take lim).map (fun e =>
      { id := e.id, summary_text := e.summary_text }))

/-- Modelled from the spec: the Agent Loop Engine (spec §4.2) is implemented
by an edge-function worker that is not among the source files; only the
dispatcher that triggers it is.  Per the spec, each iteration of the loop
decides either another think/search/read step — possibly updating the
running summary —, a terminal Summarize decision carrying the final
summary, or an unrecoverable failure (backend unreachable, unusable
response) carrying an error message. -/
inductive AgentDecision where
  | act (summary : Option String)
  | finishSummarize (summary : String)
  | fail (error : String)
deriving DecidableEq, Repr

/-- Modelled from the spec: the outcome of one agent-loop execution — final
status, number of steps taken, best summary gathered, captured error. -/
structure AgentOutcome where
  status : String
  steps : Nat
  summary : Option String
  error_message : Option String
deriving DecidableEq, Repr

/-- Modelled from the spec: the bounded agent loop.  `fuel` counts the steps
remaining below the ceiling; reaching the ceiling without a terminal
Summarize decision is a termination condition, not an error — the execution
completes with the best summary gathered so far.  A terminal Summarize
decision completes with that summary; an unrecoverable failure transitions
the execution to `failed` with the captured error message. -/
def agent_loop_go (policy : Nat → AgentDecision) :
    Nat → Nat → Option String → AgentOutcome
  | 0, steps, best =>
    { status := "completed", steps := steps, summary := best, error_message := none }
  | fuel + 1, steps, best =>
    match policy steps with
    | AgentDecision.finishSummarize s =>
      { status := "completed", steps := steps + 1, summary := some s,
        error_message := none }
    | AgentDecision.fail msg =>
      { status := "failed", steps := steps + 1, summary := best,
        error_message := some msg }
    | AgentDecision.act s => agent_loop_go policy fuel (steps + 1) (s.orElse fun _ => best)

/-- Modelled from the spec: run one execution's agent loop from step 0 with
the configured step ceiling. -/
def run_agent_loop (policy : Nat → AgentDecision) (step_ceiling : Nat) : AgentOutcome :=
  agent_loop_go policy step_ceiling 0 none

end OpenScouts

namespace OpenScouts

/-! Helper lemmas -/

theorem scout_config_complete_of_fields (title goal desc loc : String)
    (qs : List String) (f : String) (ht : title ≠ "") (hg : goal ≠ "")
    (hd : desc ≠ "") (hq : qs ≠ []) :
    scout_config_complete (some title) (some goal) (some desc) (some loc)
      (some qs) (some f) = true := by
  simp [scout_config_complete, ht, hg, hd, List.length_pos, hq]

theorem should_run_scout_never_run (title goal desc loc : String)
    (qs : List String) (f : String) (ht : title ≠ "") (hg : goal ≠ "")
    (hd : desc ≠ "") (hq : qs ≠ []) (now : Timestamp) :
    should_run_scout (some f) none true (some title) (some goal) (some desc)
      (some loc) (some qs) now = true := by
  simp only [should_run_scout,
    scout_config_complete_of_fields title goal desc loc qs f ht hg hd hq]
  rfl

theorem should_run_scout_hourly (title goal desc loc : String)
    (qs : List String) (ht : title ≠ "") (hg : goal ≠ "")
    (hd : desc ≠ "") (hq : qs ≠ []) (last now : Timestamp) :
    should_run_scout (some "hourly") (some last) true (some title) (some goal)
      (some desc) (some loc) (some qs) now = decide (1 ≤ (now - last) / 3600) := by
  simp only [should_run_scout,
    scout_config_complete_of_fields title goal desc loc qs "hourly" ht hg hd hq]
  rfl

theorem should_run_scout_every_3_days (title goal desc loc : String)
    (qs : List String) (ht : title ≠ "") (hg : goal ≠ "")
    (hd : desc ≠ "") (hq : qs ≠ []) (last now : Timestamp) :
    should_run_scout (some "every_3_days") (some last) true (some title) (some goal)
      (some desc) (some loc) (some qs) now = decide (72 ≤ (now - last) / 3600) := by
  simp only [should_run_scout,
    scout_config_complete_of_fields title goal desc loc qs "every_3_days" ht hg hd hq]
  rfl

theorem should_run_scout_weekly (title goal desc loc : String)
    (qs : List String) (ht : title ≠ "") (hg : goal ≠ "")
    (hd : desc ≠ "") (hq : qs ≠ []) (last now : Timestamp) :
    should_run_scout (some "weekly") (some last) true (some title) (some goal)
      (some desc) (some loc) (some qs) now = decide (168 ≤ (now - last) / 3600) := by
  simp only [should_run_scout,
    scout_config_complete_of_fields title goal desc loc qs "weekly" ht hg hd hq]
  rfl

theorem should_run_scout_unknown_freq (title goal desc loc : String)
    (qs : List String) (f : String) (ht : title ≠ "") (hg : goal ≠ "")
    (hd : desc ≠ "") (hq : qs ≠ []) (hf1 : f ≠ "hourly")
    (hf2 : f ≠ "every_3_days") (hf3 : f ≠ "weekly") (last now : Timestamp) :
    should_run_scout (some f) (some last) true (some title) (some goal)
      (some desc) (some loc) (some qs) now = false := by
  simp only [should_run_scout,
    scout_config_complete_of_fields title goal desc loc qs f ht hg hd hq]
  simp only [Bool.not_true, Bool.or_self, Bool.false_eq_true, if_false]
  split
  · rename_i h; exact absurd (Option.some_injective _ h) hf1
  · rename_i h; exact absurd (Option.some_injective _ h) hf2
  · rename_i h; exact absurd (Option.some_injective _ h) hf3
  · rfl

/-! Claims about the due predicate -/

/-- C2: for an active, eligible scout the due predicate is true when
`last_run_at` is null; otherwise it is true exactly when the elapsed time
from `last_run_at` to `now` reaches the threshold of the scout's frequency:
1 hour (3600 s) for `hourly`, 72 hours (259200 s) for `every_3_days`,
168 hours (604800 s) for `weekly`. -/
theorem C2_due_predicate_thresholds (title goal desc loc : String)
    (qs : List String) (ht : title ≠ "") (hg : goal ≠ "") (hd : desc ≠ "")
    (hq : qs ≠ []) (last now : Timestamp) :
    (∀ f : String, should_run_scout (some f) none true (some title) (some goal)
        (some desc) (some loc) (some qs) now = true)
    ∧ should_run_scout (some "hourly") (some last) true (some title) (some goal)
        (some desc) (some loc) (some qs) now = decide (3600 ≤ now - last)
    ∧ should_run_scout (some "every_3_days") (some last) true (some title) (some goal)
        (some desc) (some loc) (some qs) now = decide (259200 ≤ now - last)
    ∧ should_run_scout (some "weekly") (some last) true (some title) (some goal)
        (some desc) (some loc) (some qs) now = decide (604800 ≤ now - last) := by
  refine ⟨fun f => should_run_scout_never_run title goal desc loc qs f ht hg hd hq now,
    ?_, ?_, ?_⟩
  · rw [should_run_scout_hourly title goal desc loc qs ht hg hd hq last now,
      decide_eq_decide, le_div_iff₀ (by norm_num : (0:ℚ) < 3600)]
    norm_num
  · rw [should_run_scout_every_3_days title goal desc loc qs ht hg hd hq last now,
      decide_eq_decide, le_div_iff₀ (by norm_num : (0:ℚ) < 3600)]
    norm_num
  · rw [should_run_scout_weekly title goal desc loc qs ht hg hd hq last now,
      decide_eq_decide, le_div_iff₀ (by norm_num : (0:ℚ) < 3600)]
    norm_num

/-- C2 witness: an hourly scout last run 2 hours (7200 s) ago is due; one
last run 30 minutes (1800 s) ago is not. -/
theorem C2_due_predicate_thresholds_witness :
    should_run_scout (some "hourly") (some 0) true (some "t") (some "g")
        (some "d") (some "loc") (some ["q"]) 7200 = true
    ∧ should_run_scout (some "hourly") (some 5400) true (some "t") (some "g")
        (some "d") (some "loc") (some ["q"]) 7200 = false := by
  have h1 := (C2_due_predicate_thresholds "t" "g" "d" "loc" ["q"]
    (by decide) (by decide) (by decide) (by decide) 0 7200).2.1
  have h2 := (C2_due_predicate_thresholds "t" "g" "d" "loc" ["q"]
    (by decide) (by decide) (by decide) (by decide) 5400 7200).2.1
  refine ⟨?_, ?_⟩
  · rw [h1]
    simp only [decide_eq_true_eq]
    norm_num
  · rw [h2]
    simp only [decide_eq_false_iff_not]
    norm_num

/-- C7: the due predicate is false (the scout is skipped, not an error)
whenever the scout is inactive or fails the eligibility invariant: title,
goal or description null or empty, location filter absent, search-query list
null or empty, or frequency unset. -/
theorem C7_skip_inactive_or_incomplete (p_frequency : Option String)
    (p_last_run_at : Option Timestamp) (p_is_active : Bool)
    (p_title p_goal p_description p_location : Option String)
    (p_search_queries : Option (List String)) (now : Timestamp)
    (h : p_is_active = false ∨ p_title = none ∨ p_title = some "" ∨ p_goal = none
      ∨ p_goal = some "" ∨ p_description = none ∨ p_description = some ""
      ∨ p_location = none ∨ p_search_queries = none ∨ p_search_queries = some []
      ∨ p_frequency = none) :
    should_run_scout p_frequency p_last_run_at p_is_active p_title p_goal
      p_description p_location p_search_queries now = false := by
  rcases h with h|h|h|h|h|h|h|h|h|h|h <;> subst h <;>
    simp [should_run_scout, scout_config_complete]

/-- C7 witness: an inactive but otherwise fully configured scout that never
ran is not due. -/
theorem C7_skip_inactive_or_incomplete_witness :
    should_run_scout (some "hourly") none false (some "t") (some "g") (some "d")
      (some "loc") (some ["q"]) 0 = false :=
  C7_skip_inactive_or_incomplete (some "hourly") none false (some "t") (some "g")
    (some "d") (some "loc") (some ["q"]) 0 (Or.inl rfl)

/-- C9: for an active, eligible scout whose frequency is none of `hourly`,
`every_3_days` or `weekly`, the due predicate is true when `last_run_at` is
null (the null check precedes the frequency dispatch) and false for every
non-null `last_run_at`. -/
theorem C9_unknown_frequency (f : String) (hf1 : f ≠ "hourly")
    (hf2 : f ≠ "every_3_days") (hf3 : f ≠ "weekly")
    (title goal desc loc : String) (qs : List String) (ht : title ≠ "")
    (hg : goal ≠ "") (hd : desc ≠ "") (hq : qs ≠ []) (now : Timestamp) :
    should_run_scout (some f) none true (some title) (some goal) (some desc)
        (some loc) (some qs) now = true
    ∧ ∀ last : Timestamp, should_run_scout (some f) (some last) true (some title)
        (some goal) (some desc) (some loc) (some qs) now = false :=
  ⟨should_run_scout_never_run title goal desc loc qs f ht hg hd hq now,
   fun last => should_run_scout_unknown_freq title goal desc loc qs f
     ht hg hd hq hf1 hf2 hf3 last now⟩

/-- C9 witness: a scout with the unrecognized frequency `daily` is due when
it never ran and not due once any `last_run_at` is set. -/
theorem C9_unknown_frequency_witness :
    should_run_scout (some "daily") none true (some "t") (some "g") (some "d")
        (some "loc") (some ["q"]) 7200 = true
    ∧ should_run_scout (some "daily") (some 0) true (some "t") (some "g")
        (some "d") (some "loc") (some ["q"]) 7200 = false := by
  have h := C9_unknown_frequency "daily" (by decide) (by decide) (by decide)
    "t" "g" "d" "loc" ["q"] (by decide) (by decide) (by decide) (by decide) 7200
  exact ⟨h.1, h.2 0⟩



/-! Claims about the dispatcher -/

/-- A fully configured, active, never-run scout, used as the concrete input
of the dispatcher claims. -/
def scout0 : Scout :=
  { id := 1, title := some "t", goal := some "g", description := some "d",
    location := some "loc", search_queries := some ["q"],
    frequency := some "hourly", is_active := true, last_run_at := none }

/-- C5: a dispatch tick never fires more than the batch cap of 20 requests,
whatever the scout table, execution table, secrets and clock. -/
theorem C5_batch_cap (supabase_url anon_key : Option String)
    (scouts : List Scout) (executions : List ScoutExecution) (now : Timestamp) :
    (dispatch_due_scouts supabase_url anon_key scouts executions now).requests.length
      ≤ 20 := by
  cases supabase_url <;> cases anon_key <;>
    simp [dispatch_due_scouts, List.length_take]

/-- C10: when either vault secret is null, the dispatch tick emits the
warning and returns with no request fired and the scout and execution tables
untouched. -/
theorem C10_missing_secrets (supabase_url anon_key : Option String)
    (scouts : List Scout) (executions : List ScoutExecution) (now : Timestamp)
    (h : supabase_url = none ∨ anon_key = none) :
    dispatch_due_scouts supabase_url anon_key scouts executions now
      = { warned := true, requests := [], scouts := scouts,
          executions := executions } := by
  rcases h with h | h
  · subst h; cases anon_key <;> rfl
  · subst h; cases supabase_url <;> rfl

/-- C10 witness: with the project URL secret missing, a tick over one due
scout fires nothing and changes nothing. -/
theorem C10_missing_secrets_witness :
    dispatch_due_scouts none (some "k") [scout0] [] 0
      = { warned := true, requests := [], scouts := [scout0], executions := [] } :=
  C10_missing_secrets none (some "k") [scout0] [] 0 (Or.inl rfl)


/-- C1 counterexample: the claim asserts that a dispatch tick atomically
claims each selected scout by creating a `running` ScoutExecution and
stamping `last_run_at`.  On the concrete state of one due scout and an empty
execution table, a tick with both secrets configured selects and dispatches
the scout (one request fired) yet creates no execution row and leaves the
scout — `last_run_at` included — unchanged; consequently a second tick from
the resulting state selects and dispatches the very same scout again, so
nothing in the dispatcher prevents two concurrent ticks from both claiming
it. -/
theorem C1_counterexample :
    (dispatch_due_scouts (some "u") (some "k") [scout0] [] 0).requests.length = 1
    ∧ (dispatch_due_scouts (some "u") (some "k") [scout0] [] 0).executions = []
    ∧ (dispatch_due_scouts (some "u") (some "k") [scout0] [] 0).scouts = [scout0]
    ∧ scout0.last_run_at = none
    ∧ (dispatch_due_scouts (some "u") (some "k")
        (dispatch_due_scouts (some "u") (some "k") [scout0] [] 0).scouts
        (dispatch_due_scouts (some "u") (some "k") [scout0] [] 0).executions
        0).requests.length = 1 := by
  refine ⟨?_, rfl, rfl, rfl, ?_⟩ <;> decide

/-- C1 amended: for each scout selected as due, the dispatch tick fires one
asynchronous HTTP trigger naming the scout; it creates no ScoutExecution,
stamps no `last_run_at`, and leaves the scout and execution tables exactly
as they were — any claiming is left to the triggered worker, outside this
function. -/
theorem C1_dispatch_only_fires_requests (url key : String)
    (scouts : List Scout) (executions : List ScoutExecution) (now : Timestamp) :
    (dispatch_due_scouts (some url) (some key) scouts executions now).executions
        = executions
    ∧ (dispatch_due_scouts (some url) (some key) scouts executions now).scouts
        = scouts
    ∧ (dispatch_due_scouts (some url) (some key) scouts executions now).requests.map
          (fun r => r.scoutId)
        = ((scouts.filter (fun s =>
            should_run_scout s.frequency s.last_run_at s.is_active s.title s.goal
              s.description s.location s.search_queries now)).take 20).map
          (fun s => s.id) := by
  refine ⟨rfl, rfl, ?_⟩
  simp [dispatch_due_scouts, List.map_map]
  rfl

/-! Claim about the reaper -/

/-- C3: a reaper tick at time `now` rewrites exactly those executions that
are `running` and started strictly more than the 5-minute timeout (300 s)
before `now`, setting status `failed`, `completed_at := now` and the
standard timed-out message, and leaves every other execution — in
particular any execution started less than the timeout ago — unchanged. -/
theorem C3_reaper_exact (executions : List ScoutExecution)
    (job_run_details : List Timestamp) (now : Timestamp) :
    (cleanup_scout_executions executions job_run_details now).1
      = executions.map (fun e =>
          if e.status = "running" ∧ 300 < now - e.started_at then
            { e with status := "failed", completed_at := some now,
                     error_message := some "Execution timed out after 5 minutes" }
          else e) := by
  unfold cleanup_scout_executions
  refine List.map_congr_left ?_
  intro e _
  by_cases h1 : e.status = "running"
  · by_cases h2 : e.started_at < now - 300
    · rw [if_pos, if_pos]
      · exact ⟨h1, by linarith⟩
      · simp [h1, h2]
    · rw [if_neg, if_neg]
      · rintro ⟨_, h3⟩; exact h2 (by linarith)
      · simp [h1, h2]
  · rw [if_neg, if_neg]
    · rintro ⟨h3, _⟩; exact h1 h3
    · simp [h1]


/-! Claim about the agent loop (spec-modelled) -/

/-- The running summary accumulated by a sequence of act decisions: each
step's summary, when present, supersedes the previous best. -/
def best_summary (policy : Nat → AgentDecision) (steps : List Nat)
    (start : Option String) : Option String :=
  steps.foldl (fun best n =>
    match policy n with
    | AgentDecision.act s => s.orElse fun _ => best
    | _ => best) start

theorem agent_loop_go_all_act (policy : Nat → AgentDecision) :
    ∀ (fuel steps : Nat) (best : Option String),
      (∀ n, steps ≤ n → n < steps + fuel → ∃ o, policy n = AgentDecision.act o) →
      agent_loop_go policy fuel steps best
        = { status := "completed", steps := steps + fuel,
            summary := best_summary policy (List.range' steps fuel) best,
            error_message := none } := by
  intro fuel
  induction fuel with
  | zero => intro steps best _; simp [agent_loop_go, best_summary]
  | succ m ih =>
    intro steps best h
    obtain ⟨o, ho⟩ := h steps (Nat.le_refl _) (by omega)
    rw [agent_loop_go, ho]
    dsimp only
    rw [ih (steps + 1) (o.orElse fun _ => best) (fun n h1 h2 => h n (by omega) (by omega))]
    rw [List.range'_succ]
    have hsum : best_summary policy (steps :: List.range' (steps + 1) m) best
        = best_summary policy (List.range' (steps + 1) m) (o.orElse fun _ => best) := by
      simp [best_summary, ho]
    have hsteps : steps + 1 + m = steps + (m + 1) := by omega
    rw [hsum, hsteps]

/-- C6: a run whose policy never issues a terminal Summarize decision below
the step ceiling terminates at the ceiling with status `completed` — never
`failed` — after exactly `ceiling` steps, carrying the best summary the act
steps gathered. -/
theorem C6_ceiling_completes (policy : Nat → AgentDecision) (ceiling : Nat)
    (h : ∀ n, n < ceiling → ∃ o, policy n = AgentDecision.act o) :
    (run_agent_loop policy ceiling).status = "completed"
    ∧ (run_agent_loop policy ceiling).status ≠ "failed"
    ∧ (run_agent_loop policy ceiling).steps = ceiling
    ∧ (run_agent_loop policy ceiling).error_message = none
    ∧ (run_agent_loop policy ceiling).summary
        = best_summary policy (List.range ceiling) none := by
  have hgo := agent_loop_go_all_act policy ceiling 0 none
    (fun n h1 h2 => h n (by omega))
  have hrun : run_agent_loop policy ceiling
      = { status := "completed", steps := 0 + ceiling,
          summary := best_summary policy (List.range' 0 ceiling) none,
          error_message := none } := by
    rw [run_agent_loop, hgo]
  rw [List.range_eq_range', hrun]
  exact ⟨rfl, by simp, by simp, rfl, rfl⟩

/-- C6 witness: a policy that always issues a plain act step with a fresh
summary, under ceiling 10, completes (does not fail) after exactly 10 steps
with the last summary gathered. -/
theorem C6_ceiling_completes_witness :
    (run_agent_loop (fun n => AgentDecision.act (some (toString n))) 10).status
        = "completed"
    ∧ (run_agent_loop (fun n => AgentDecision.act (some (toString n))) 10).steps = 10
    ∧ (run_agent_loop (fun n => AgentDecision.act (some (toString n))) 10).summary
        = some "9" := by
  have h := C6_ceiling_completes (fun n => AgentDecision.act (some (toString n))) 10
    (fun n _ => ⟨some (toString n), rfl⟩)
  exact ⟨h.1, h.2.2.1, by rw [h.2.2.2.2]; rfl⟩


/-! Claims about the similarity ranking -/

theorem cosine_dist_le_total (q a b : List ℚ) :
    cosine_dist_le q a b = true ∨ cosine_dist_le q b a = true := by
  unfold cosine_dist_le
  by_cases h1 : 0 ≤ vdot q a <;> by_cases h2 : 0 ≤ vdot q b
  · by_cases h3 : vdot q b ≤ 0
    · left; simp [h1, h3]
    · by_cases h4 : vdot q a ≤ 0
      · right; simp [h2, h4]
      · rcases le_total (vdot q b * vdot q b * vnormSq a)
          (vdot q a * vdot q a * vnormSq b) with h5 | h5
        · left; simp [h1, h3, h5]
        · right; simp [h2, h4, h5]
  · left; simp [h1, le_of_not_le h2]
  · right; simp [h2, le_of_not_le h1]
  · rcases le_total (vdot q a * vdot q a * vnormSq b)
      (vdot q b * vdot q b * vnormSq a) with h5 | h5
    · left; simp [h1, h2, h5, not_le.mp h1, not_le.mp h2]
    · right; simp [h1, h2, h5, not_le.mp h1, not_le.mp h2]

theorem embedding_dist_le_total (q : List ℚ) (a b : Option (List ℚ)) :
    embedding_dist_le q a b = true ∨ embedding_dist_le q b a = true := by
  cases a <;> cases b <;> simp [embedding_dist_le]
  exact cosine_dist_le_total q _ _

theorem chain'_orderedInsert {α : Type} (r : α → α → Prop) [DecidableRel r]
    (total : ∀ a b, r a b ∨ r b a) (x : α) :
    ∀ l : List α, List.Chain' r l → List.Chain' r (List.orderedInsert r x l) := by
  intro l
  induction l with
  | nil => intro _; simp
  | cons y ys ih =>
    intro h
    by_cases hxy : r x y
    · rw [List.orderedInsert, if_pos hxy]
      exact List.Chain'.cons hxy h
    · rw [List.orderedInsert, if_neg hxy, List.chain'_cons']
      refine ⟨?_, ih h.tail⟩
      intro z hz
      cases ys with
      | nil =>
        simp at hz
        subst hz
        exact (total x y).resolve_left hxy
      | cons w ws =>
        rw [List.orderedInsert] at hz
        by_cases hxw : r x w
        · rw [if_pos hxw] at hz
          simp at hz
          subst hz
          exact (total x y).resolve_left hxy
        · rw [if_neg hxw] at hz
          simp at hz
          subst hz
          exact (List.chain'_cons.mp h).1

theorem chain'_insertionSort {α : Type} (r : α → α → Prop) [DecidableRel r]
    (total : ∀ a b, r a b ∨ r b a) :
    ∀ l : List α, List.Chain' r (List.insertionSort r l)
  | [] => List.chain'_nil
  | a :: l => by
    rw [List.insertionSort]
    exact chain'_orderedInsert r total a _ (chain'_insertionSort r total l)

/-- Completed execution with an older `completed_at` (100 s) whose embedding
ties with `exec_new`'s, stored first. -/
def exec_old : ScoutExecution :=
  { id := 1, scout_id := 1, status := "completed", started_at := 0,
    completed_at := some 100, error_message := none, summary_text := "old",
    summary_embedding := some [1, 0] }

/-- Completed execution with a more recent `completed_at` (200 s) and the
same embedding as `exec_old`, stored second. -/
def exec_new : ScoutExecution :=
  { id := 2, scout_id := 1, status := "completed", started_at := 0,
    completed_at := some 200, error_message := none, summary_text := "new",
    summary_embedding := some [1, 0] }

/-- Completed execution with a null summary embedding. -/
def exec_noemb : ScoutExecution :=
  { id := 3, scout_id := 1, status := "completed", started_at := 0,
    completed_at := some 300, error_message := none, summary_text := "none",
    summary_embedding := none }

theorem vdot_unit : vdot [1, 0] [1, 0] = 1 := by
  simp [vdot]

theorem vnormSq_unit : vnormSq [1, 0] = 1 := by
  simp [vnormSq, vdot]

theorem cosine_dist_le_unit : cosine_dist_le [1, 0] [1, 0] [1, 0] = true := by
  unfold cosine_dist_le
  rw [vdot_unit, vnormSq_unit]
  norm_num

/-- Evaluation of the similarity query on the three fixtures: the two tied
candidates come back in storage order (the older `exec_old` first) and the
null-embedding candidate is included, last. -/
theorem search_eval_tie :
    search_similar_scouts [exec_old, exec_new, exec_noemb] [1, 0] 5
      = Except.ok [{ id := 1, summary_text := "old" },
                   { id := 2, summary_text := "new" },
                   { id := 3, summary_text := "none" }] := by
  simp [search_similar_scouts, rank_by_distance, List.insertionSort,
    List.orderedInsert, exec_old, exec_new, exec_noemb, embedding_dist_le,
    cosine_dist_le_unit]

/-- C4 counterexample: the claim requires equal-distance candidates to be
ordered most-recent `completed_at` first and the candidate pool to contain
only completed executions with a non-null embedding.  On the concrete store
`[exec_old, exec_new, exec_noemb]` and query `[1, 0]`, the two candidates at
distance 0 come back with the older `completed_at` (100 s) before the newer
one (200 s) — storage order, not recency — and the null-embedding candidate
is returned as well. -/
theorem C4_counterexample :
    search_similar_scouts [exec_old, exec_new, exec_noemb] [1, 0] 5
      = Except.ok [{ id := 1, summary_text := "old" },
                   { id := 2, summary_text := "new" },
                   { id := 3, summary_text := "none" }]
    ∧ exec_old.id = 1 ∧ exec_new.id = 2 ∧ exec_noemb.id = 3
    ∧ exec_old.completed_at = some 100 ∧ exec_new.completed_at = some 200
    ∧ exec_old.summary_embedding = exec_new.summary_embedding
    ∧ exec_noemb.status = "completed" ∧ exec_noemb.summary_embedding = none := by
  exact ⟨search_eval_tie, rfl, rfl, rfl, rfl, rfl, rfl, rfl, rfl⟩

/-- C4 amended: the query ranks all completed executions — null-embedding
ones included, those sorting after every non-null one — by ascending cosine
distance to the query, with equal-distance candidates kept in storage order
(no `completed_at` tie-break), and returns the first `lim` of them.  The
theorem states that the ranked pool is ordered under the cosine-distance
key, that at most `lim` rows come back, and that every returned row is the
projection of a stored completed execution. -/
theorem C4_ranking_sorted (executions : List ScoutExecution) (q : List ℚ)
    (lim : Nat) :
    List.Chain'
      (fun u v => embedding_dist_le q u.summary_embedding v.summary_embedding = true)
      (rank_by_distance q (executions.filter (fun e => e.status == "completed")))
    ∧ ((search_similar_scouts executions q lim).toOption.getD []).length ≤ lim
    ∧ (∀ rows, search_similar_scouts executions q lim = Except.ok rows →
        ∀ r ∈ rows, ∃ e, e ∈ executions ∧ e.status = "completed"
          ∧ r = { id := e.id, summary_text := e.summary_text }) := by
  refine ⟨?_, ?_, ?_⟩
  · exact chain'_insertionSort
      (fun u v : ScoutExecution =>
        embedding_dist_le q u.summary_embedding v.summary_embedding = true)
      (fun u v => embedding_dist_le_total q u.summary_embedding v.summary_embedding) _
  · simp only [search_similar_scouts]
    split
    · simp [Except.toOption]
    · simp [Except.toOption, List.length_take]
  · intro rows hrows r hr
    simp only [search_similar_scouts] at hrows
    split at hrows
    · exact absurd hrows (by simp)
    · injection hrows with hrows
      subst hrows
      obtain ⟨e, hmem, heq⟩ := List.mem_map.mp hr
      have hpool : e ∈ executions.filter (fun e => e.status == "completed") :=
        (List.perm_insertionSort _ _).mem_iff.mp (List.mem_of_mem_take hmem)
      obtain ⟨hexe, hst⟩ := List.mem_filter.mp hpool
      exact ⟨e, hexe, by simpa using hst, heq.symm⟩

/-- C4 witness: instantiating the amended theorem on the concrete fixtures:
the returned row with id 1 is the projection of a stored completed
execution. -/
theorem C4_ranking_sorted_witness :
    ∃ e, e ∈ [exec_old, exec_new, exec_noemb] ∧ e.status = "completed"
      ∧ ({ id := 1, summary_text := "old" } : SearchRow)
          = { id := e.id, summary_text := e.summary_text } := by
  refine (C4_ranking_sorted [exec_old, exec_new, exec_noemb] [1, 0] 5).2.2
    [{ id := 1, summary_text := "old" }, { id := 2, summary_text := "new" },
     { id := 3, summary_text := "none" }] ?_
    { id := 1, summary_text := "old" } (by simp)
  simp [search_similar_scouts, rank_by_distance, List.insertionSort,
    List.orderedInsert, exec_old, exec_new, exec_noemb, embedding_dist_le,
    cosine_dist_le_unit]

/-- C8: a similarity query whose embedding dimension differs from that of
some stored (non-null) summary embedding of a completed execution is
rejected whole — pgvector's `<=>` raises `different vector dimensions`, so
no row is returned and neither vector is truncated or padded. -/
theorem C8_dimension_mismatch (executions : List ScoutExecution) (q : List ℚ)
    (lim : Nat)
    (h : ∃ e ∈ executions, e.status = "completed"
      ∧ ∃ v, e.summary_embedding = some v ∧ v.length ≠ q.length) :
    search_similar_scouts executions q lim
      = Except.error "different vector dimensions" := by
  obtain ⟨e, hexe, hst, v, hv, hlen⟩ := h
  simp only [search_similar_scouts]
  rw [if_pos]
  refine List.any_eq_true.mpr ⟨e, List.mem_filter.mpr ⟨hexe, by simp [hst]⟩, ?_⟩
  rw [hv]
  simpa using hlen

/-- C8 witness: a 3-dimensional query against the stored 2-dimensional
embedding of `exec_old` errors out. -/
theorem C8_dimension_mismatch_witness :
    search_similar_scouts [exec_old] [1, 0, 0] 5
      = Except.error "different vector dimensions" :=
  C8_dimension_mismatch [exec_old] [1, 0, 0] 5
    ⟨exec_old, by simp, rfl, [1, 0], rfl, by decide⟩

end OpenScouts
